import Mathlib

/-!
Verification of the Student Performance Management System
(student_system.py): a shallow embedding of the MySQL-backed CRUD
manager, the CSV backup/restore adapter, the pandas statistics and the
CLI input handling, together with proofs of the specified properties.

Machine floats are modelled by the rationals; database cells of the
marks column are modelled as Option values, where none stands for a
non-numeric cell (pandas to_numeric with errors coerce turns it into
NaN, Python float() on it raises ValueError).
-/

namespace StudentSystem

/-- One row of the students table. -/
structure Row where
  roll_no : String
  name : String
  marks : Option ℚ
  grade : String
deriving DecidableEq

/-- The students table: a list of rows in insertion order. -/
abbrev Store := List Row

/-- The Python exception classes the program distinguishes:
mysql.connector.Error, RuntimeError, the builtin ConnectionError and
ValueError. -/
inductive PyExc where
  | mysqlError (msg : String)
  | runtimeError (msg : String)
  | connectionError (msg : String)
  | valueError (msg : String)
deriving DecidableEq

/-- Whether an exception is a mysql.connector.Error, the only class the
except-Error handlers of the manager catch. -/
def PyExc.isMysql : PyExc → Bool
  | .mysqlError _ => true
  | _ => false

/-- Whether an exception is the builtin ConnectionError. -/
def PyExc.isConnectionErr : PyExc → Bool
  | .connectionError _ => true
  | _ => false

/-- Lines 56-59 of Database.execute: when no live connection exists the
gateway makes exactly one reconnect attempt via self.connect() and,
when that attempt fails, raises RuntimeError with message DB connection
failed.  Returns the outcome of the connection phase together with the
number of reconnect attempts made. -/
def execute_conn_phase (connLive connectOk : Bool) : Except PyExc Unit × Nat :=
  if connLive then (.ok (), 0)
  else if connectOk then (.ok (), 1)
  else (.error (.runtimeError "DB connection failed"), 1)

/-- Ascending primary-key order on rows. -/
def rollAsc (a b : Row) : Prop := a.roll_no ≤ b.roll_no

instance : DecidableRel rollAsc := fun a b =>
  decidable_of_iff (a.roll_no ≤ b.roll_no) Iff.rfl

instance : IsTotal Row rollAsc := ⟨fun a b => le_total a.roll_no b.roll_no⟩

instance : IsTrans Row rollAsc := ⟨fun _ _ _ h1 h2 => le_trans h1 h2⟩

/-- Row order of a full scan of the students table.  InnoDB clusters the
table on the primary key roll_no, so both the ORDER BY roll_no query of
view_students and the plain SELECT statements of stats and plot return
rows in ascending roll_no order; the scan is modelled as a stable sort
by roll_no. -/
def sortByRoll (s : Store) : List Row := List.insertionSort rollAsc s

/-- INSERT INTO students (roll_no, name, marks, grade) VALUES (...),
executed through Database.execute.  fault injects an arbitrary
exception raised during the statement (connection loss, server-side
error); with no fault injected the statement fails exactly on a
duplicate primary key. -/
def dbInsert (fault : Option PyExc) (s : Store) (r : Row) : Except PyExc Store :=
  match fault with
  | some e => .error e
  | none =>
    if s.any (fun row => row.roll_no == r.roll_no) then
      .error (.mysqlError "Duplicate entry for PRIMARY KEY")
    else .ok (s ++ [r])

/-- The dynamic SET clause built by update_student: only the supplied
fields are assigned, omitted fields keep their stored value. -/
def setClause (name? : Option String) (marks? : Option ℚ) (grade? : Option String)
    (row : Row) : Row :=
  { row with
    name := name?.getD row.name
    marks := match marks? with | some m => some m | none => row.marks
    grade := grade?.getD row.grade }

/-- UPDATE students SET (supplied fields) WHERE roll_no = k. -/
def dbUpdate (fault : Option PyExc) (s : Store) (k : String)
    (name? : Option String) (marks? : Option ℚ) (grade? : Option String) :
    Except PyExc Store :=
  match fault with
  | some e => .error e
  | none =>
    .ok (s.map fun row => if row.roll_no = k then setClause name? marks? grade? row else row)

/-- DELETE FROM students WHERE roll_no = k; deleting an absent key is
not an error. -/
def dbDelete (fault : Option PyExc) (s : Store) (k : String) : Except PyExc Store :=
  match fault with
  | some e => .error e
  | none => .ok (s.filter fun row => row.roll_no ≠ k)

/-- SELECT * FROM students ORDER BY roll_no. -/
def dbSelectAll (fault : Option PyExc) (s : Store) : Except PyExc (List Row) :=
  match fault with
  | some e => .error e
  | none => .ok (sortByRoll s)

/-- SELECT * FROM students WHERE roll_no = k. -/
def dbSelectByRoll (fault : Option PyExc) (s : Store) (k : String) :
    Except PyExc (List Row) :=
  match fault with
  | some e => .error e
  | none => .ok ((sortByRoll s).filter fun row => row.roll_no = k)

/-- A row of the stats fetch, SELECT roll_no, name, marks. -/
structure StatRow where
  roll_no : String
  name : String
  marks : Option ℚ
deriving DecidableEq

def Row.toStatRow (r : Row) : StatRow := ⟨r.roll_no, r.name, r.marks⟩

/-- The rows fetched by SELECT roll_no, name, marks FROM students. -/
def statsFetch (s : Store) : List StatRow := (sortByRoll s).map Row.toStatRow

def dbSelectStats (fault : Option PyExc) (s : Store) : Except PyExc (List StatRow) :=
  match fault with
  | some e => .error e
  | none => .ok (statsFetch s)

/-- SELECT marks FROM students (the plot fetch). -/
def dbSelectMarks (fault : Option PyExc) (s : Store) : Except PyExc (List (Option ℚ)) :=
  match fault with
  | some e => .error e
  | none => .ok ((sortByRoll s).map fun r => r.marks)

/-- StudentManager.view_students: returns all rows ordered by roll_no,
an empty list with a message when the table is empty, and an empty list
with a diagnostic when the statement raises a mysql Error; any other
exception propagates. -/
def view_students (fault : Option PyExc) (s : Store) :
    Except PyExc (List Row × List String) :=
  match dbSelectAll fault s with
  | .ok rows => if rows = [] then .ok ([], ["No students found."]) else .ok (rows, [])
  | .error e =>
    if e.isMysql then .ok ([], ["❌ Error fetching students."]) else .error e

/-- StudentManager.add_student. -/
def add_student (fault : Option PyExc) (s : Store) (st : Row) :
    Except PyExc (Store × List String) :=
  match dbInsert fault s st with
  | .ok s' => .ok (s', ["✅ Student added."])
  | .error e =>
    if e.isMysql then .ok (s, ["❌ Error adding student."]) else .error e

/-- StudentManager.get_student_by_roll. -/
def get_student_by_roll (fault : Option PyExc) (s : Store) (k : String) :
    Except PyExc (Option Row × List String) :=
  match dbSelectByRoll fault s k with
  | .ok rows => .ok (rows.head?, [])
  | .error e => if e.isMysql then .ok (none, ["❌ Error."]) else .error e

/-- StudentManager.update_student: confirms existence, builds the SET
clause from the supplied fields only, no-ops with a message when no
field is supplied. -/
def update_student (fSel fUpd : Option PyExc) (s : Store) (k : String)
    (name? : Option String) (marks? : Option ℚ) (grade? : Option String) :
    Except PyExc (Store × List String) :=
  match get_student_by_roll fSel s k with
  | .error e => .error e
  | .ok (none, msgs) => .ok (s, msgs ++ ["❌ Student not found."])
  | .ok (some _, msgs) =>
    match name?, marks?, grade? with
    | none, none, none => .ok (s, msgs ++ ["Nothing to update."])
    | _, _, _ =>
      match dbUpdate fUpd s k name? marks? grade? with
      | .ok s' => .ok (s', msgs ++ ["✅ Student updated."])
      | .error e =>
        if e.isMysql then .ok (s, msgs ++ ["❌ Error updating student."]) else .error e

/-- StudentManager.delete_student: unconditional delete by key; reports
success whether or not the row existed. -/
def delete_student (fault : Option PyExc) (s : Store) (k : String) :
    Except PyExc (Store × List String) :=
  match dbDelete fault s k with
  | .ok s' => .ok (s', ["✅ Student deleted (if existed)."])
  | .error e =>
    if e.isMysql then .ok (s, ["❌ Error deleting student."]) else .error e

/-- StudentManager.backup_to_csv: fetches via view_students, refuses to
write when there are no rows; the written file holds exactly the
fetched rows; any exception of the file write is caught. -/
def backup_to_csv (fault : Option PyExc) (fileOk : Bool) (s : Store) :
    Except PyExc (Option (List Row) × List String) :=
  match view_students fault s with
  | .error e => .error e
  | .ok (rows, msgs) =>
    if rows = [] then .ok (none, msgs ++ ["Nothing to backup."])
    else if fileOk then .ok (some rows, msgs ++ ["✅ Backup saved."])
    else .ok (none, msgs ++ ["❌ Backup error."])

/-- Per-row outcome of restore_from_csv. -/
inductive RowOutcome where
  | inserted
  | updated
  | failed
deriving DecidableEq

/-- float(row[marks]) in restore_from_csv: a non-numeric cell raises
ValueError, which no handler inside restore_from_csv catches. -/
def parseMarksCell : Option ℚ → Except PyExc ℚ
  | some m => .ok m
  | none => .error (.valueError "could not convert string to float")

/-- One iteration of the restore loop: try the INSERT; on a mysql Error
fall back to one UPDATE by roll_no; when both fail with mysql Errors
report the row and keep the store unchanged.  Non-mysql exceptions
(including the ValueError of float) propagate. -/
def restore_row (f1 f2 : Option PyExc) (s : Store) (row : Row) :
    Except PyExc (Store × RowOutcome) :=
  match parseMarksCell row.marks with
  | .error e => .error e
  | .ok m =>
    match dbInsert f1 s { row with marks := some m } with
    | .ok s' => .ok (s', .inserted)
    | .error e =>
      if e.isMysql then
        match dbUpdate f2 s row.roll_no (some row.name) (some m) (some row.grade) with
        | .ok s' => .ok (s', .updated)
        | .error e2 => if e2.isMysql then .ok (s, .failed) else .error e2
      else .error e

/-- The restore loop over the parsed frame; fs supplies the injected
fault (if any) for the insert and fallback-update statement of each
row, row i using entry i (missing entries mean no fault). -/
def restore_rows : Store → List Row → List (Option PyExc × Option PyExc) →
    Except PyExc (Store × List RowOutcome)
  | s, [], _ => .ok (s, [])
  | s, row :: rest, fs =>
    match restore_row (fs.headD (none, none)).1 (fs.headD (none, none)).2 s row with
    | .error e => .error e
    | .ok (s', out) =>
      match restore_rows s' rest fs.tail with
      | .error e => .error e
      | .ok (s'', outs) => .ok (s'', out :: outs)

/-- StudentManager.restore_from_csv: missing file is reported; otherwise
the parsed rows are processed by the restore loop and completion is
reported. -/
def restore_from_csv (found : Bool) (s : Store) (file : List Row)
    (fs : List (Option PyExc × Option PyExc)) :
    Except PyExc (Store × List RowOutcome × List String) :=
  if found then
    match restore_rows s file fs with
    | .error e => .error e
    | .ok (s', outs) => .ok (s', outs, ["✅ Restore complete."])
  else .ok (s, [], ["❌ CSV file not found."])

/-- Arithmetic mean of a pandas column, NaN (none) on no observations. -/
def listMean (l : List ℚ) : Option ℚ :=
  if l.length = 0 then none else some (l.sum / l.length)

/-- Median of a pandas column: middle of the ascending sort, average of
the two middles on even length, NaN (none) on no observations. -/
def listMedian (l : List ℚ) : Option ℚ :=
  let srt := List.insertionSort (fun a b : ℚ => a ≤ b) l
  if srt.length = 0 then none
  else if srt.length % 2 = 1 then some (srt.getD (srt.length / 2) 0)
  else some ((srt.getD (srt.length / 2 - 1) 0 + srt.getD (srt.length / 2) 0) / 2)

/-- Sample variance with ddof 1: the square of DataFrame.std, kept as a
rational; NaN (none) when fewer than two observations exist.  df.std is
its square root, so an observation is part of the one computation iff
it is part of the other. -/
def sampleVar (l : List ℚ) : Option ℚ :=
  if l.length < 2 then none
  else
    let m := l.sum / l.length
    some ((l.map fun x => (x - m) ^ 2).sum / ((l.length : ℚ) - 1))

/-- The numeric observations of the marks column after to_numeric with
errors coerce: non-numeric cells become NaN and are skipped by the
aggregations. -/
def numericMarks (rows : List StatRow) : List ℚ := rows.filterMap fun r => r.marks

def marksVal (r : StatRow) : ℚ := r.marks.getD 0

/-- The comparison behind the descending stable sort of
DataFrame.nlargest on the marks column. -/
def marksDesc (a b : StatRow) : Prop := marksVal b ≤ marksVal a

instance : DecidableRel marksDesc := fun a b =>
  decidable_of_iff (marksVal b ≤ marksVal a) Iff.rfl

instance : IsTotal StatRow marksDesc := ⟨fun a b => (le_total (marksVal a) (marksVal b)).symm⟩

instance : IsTrans StatRow marksDesc := ⟨fun _ _ _ h1 h2 => le_trans h2 h1⟩

/-- DataFrame.nlargest(3, marks) with the default keep first: rows whose
marks coerced to NaN are dropped, the rest are ordered by marks
descending with ties kept in frame order, and the first three are
returned. -/
def nlargest3 (rows : List StatRow) : List StatRow :=
  (List.insertionSort marksDesc (rows.filter fun r => r.marks.isSome)).take 3

structure StatsOut where
  mean : Option ℚ
  median : Option ℚ
  stdSq : Option ℚ
  toppers : List StatRow
deriving DecidableEq

/-- StudentManager.stats (lines 188-212).  Unlike the CRUD operations
this method has no try/except, so any exception raised by
Database.execute propagates to the caller.  Returns none when the table
is empty (the method prints and falls off the end). -/
def stats (fault : Option PyExc) (s : Store) : Except PyExc (Option StatsOut) :=
  match dbSelectStats fault s with
  | .error e => .error e
  | .ok rows =>
    if rows = [] then .ok none
    else
      .ok (some
        { mean := listMean (numericMarks rows)
          median := listMedian (numericMarks rows)
          stdSq := sampleVar (numericMarks rows)
          toppers := nlargest3 rows })

/-- StudentManager.plot_marks_distribution (lines 215-230): also without
any try/except.  Returns the observations handed to plt.hist, none when
there is nothing to plot. -/
def plot_marks_distribution (fault : Option PyExc) (s : Store) :
    Except PyExc (Option (List ℚ)) :=
  match dbSelectMarks fault s with
  | .error e => .error e
  | .ok cells =>
    if cells = [] then .ok none
    else
      let marks := cells.filterMap id
      if marks = [] then .ok none else .ok (some marks)

/-- Python str.strip(): drop whitespace from both ends. -/
def pyStrip (s : String) : String :=
  ⟨((s.data.dropWhile Char.isWhitespace).reverse.dropWhile Char.isWhitespace).reverse⟩

/-- Python str.lower(). -/
def pyLower (s : String) : String := ⟨s.data.map Char.toLower⟩

def digitsToNat (cs : List Char) : Nat :=
  cs.foldl (fun n c => n * 10 + (c.toNat - 48)) 0

/-- Python float() restricted to plain decimal literals: optional sign,
digits, optional fractional part — the only input shapes the CLI
properties are about.  A literal d.f denotes the rational
(d * 10 ^ |f| + f) / 10 ^ |f|. -/
def pyFloatDigits (cs : List Char) : Option ℚ :=
  let intPart := cs.takeWhile Char.isDigit
  let rest := cs.dropWhile Char.isDigit
  match rest with
  | [] => if intPart.isEmpty then none else some (mkRat (digitsToNat intPart) 1)
  | c :: frac =>
    if c = '.' ∧ frac.all Char.isDigit ∧ (!intPart.isEmpty || !frac.isEmpty) then
      some (mkRat (digitsToNat intPart * 10 ^ frac.length + digitsToNat frac) (10 ^ frac.length))
    else none

def pyFloat (str : String) : Option ℚ :=
  match str.data with
  | '+' :: cs => pyFloatDigits cs
  | '-' :: cs => (pyFloatDigits cs).map (fun q => -q)
  | cs => pyFloatDigits cs

/-- input_marks (lines 245-253), used by the Add flow.  Both the
unparsable case and the out-of-range case surface as the same
ValueError message, because the range ValueError raised inside the try
block is itself caught by the except ValueError handler and replaced by
the generic one. -/
def input_marks (raw : String) : Except String ℚ :=
  match pyFloat (pyStrip raw) with
  | none => .error "Invalid marks; enter a number between 0 and 100."
  | some m =>
    if m < 0 ∨ 100 < m then .error "Invalid marks; enter a number between 0 and 100."
    else .ok m

/-- The marks prompt of menu option 4 (lines 297-300): a blank input
skips the field, anything else goes through float() with no range
check; a ValueError propagates to the menu loop. -/
def update_flow_marks (raw : String) : Except String (Option ℚ) :=
  if pyStrip raw = "" then .ok none
  else
    match pyFloat (pyStrip raw) with
    | none => .error "could not convert string to float"
    | some m => .ok (some m)

/-- Menu option 4 end to end: parse the three optional inputs, then call
update_student. -/
def update_flow (s : Store) (roll nameIn marksIn gradeIn : String) :
    Except String (Store × List String) :=
  match update_flow_marks marksIn with
  | .error msg => .error msg
  | .ok marks? =>
    let name? := if pyStrip nameIn = "" then none else some (pyStrip nameIn)
    let grade? := if pyStrip gradeIn = "" then none else some (pyStrip gradeIn)
    match update_student none none s roll name? marks? grade? with
    | .ok res => .ok res
    | .error _ => .error "Unexpected error"

/-- Menu option 5 (lines 303-309): the delete statement is issued iff
the stripped, lowercased confirmation equals yes; the Bool component
records whether delete_student was called. -/
def delete_flow (s : Store) (roll confirm : String) : Store × Bool × List String :=
  if pyLower (pyStrip confirm) = "yes" then
    match delete_student none s roll with
    | .ok (s', msgs) => (s', true, msgs)
    | .error _ => (s, true, [])
  else (s, false, ["Delete cancelled."])

/-- A sample table whose marks match the worked example of the
specification. -/
def demoStore : Store :=
  [⟨"1", "Asha", some 50, "C"⟩, ⟨"2", "Ben", some 70, "B"⟩,
   ⟨"3", "Cam", some 90, "A"⟩, ⟨"4", "Dia", some 90, "A"⟩,
   ⟨"5", "Eli", some 100, "A"⟩]

/-- The sample table extended with a row whose marks cell is
non-numeric. -/
def demoStore6 : Store := demoStore ++ [⟨"6", "Fay", none, "D"⟩]

/-- Whether an injected statement fault (if any) belongs to the
exception class caught by the except-Error handlers. -/
def faultCaught : Option PyExc → Bool
  | none => true
  | some e => e.isMysql

/-- The row transformation performed by UPDATE students SET marks = X
WHERE roll_no = k. -/
def updFn (k : String) (X : ℚ) (row : Row) : Row :=
  if row.roll_no = k then { row with marks := some X } else row

/-- Ascending primary-key order on stats rows. -/
def statRollAsc (a b : StatRow) : Prop := a.roll_no ≤ b.roll_no

/-- A sample parsed backup frame. -/
def demoFile : List Row := [⟨"7", "Gil", some 60, "B"⟩, ⟨"8", "Hana", some 80, "A"⟩]

/-- Sample injected faults: both statements of the first row fail with
storage errors of the caught class, the second row runs clean. -/
def demoFaults : List (Option PyExc × Option PyExc) :=
  [(some (.mysqlError "dup"), some (.mysqlError "down")), (none, none)]

end StudentSystem

deriving instance DecidableEq for Except

namespace StudentSystem

/-! ### General lemmas about the embedding -/

theorem mem_sortByRoll {r : Row} {s : Store} : r ∈ sortByRoll s ↔ r ∈ s :=
  (List.perm_insertionSort rollAsc s).mem_iff

theorem sortByRoll_ne_nil {s : Store} (h : s ≠ []) : sortByRoll s ≠ [] := by
  intro hs
  have hp : (sortByRoll s).Perm s := List.perm_insertionSort rollAsc s
  rw [hs] at hp
  exact h hp.symm.eq_nil

theorem get_finds (s : Store) (k : String) (hex : ∃ r ∈ s, r.roll_no = k) :
    ∃ r0, get_student_by_roll none s k = .ok (some r0, []) := by
  obtain ⟨r, hr, hk⟩ := hex
  have hmem : r ∈ (sortByRoll s).filter (fun row => row.roll_no = k) :=
    List.mem_filter.mpr ⟨mem_sortByRoll.mpr hr, by simp [hk]⟩
  cases hfl : (sortByRoll s).filter (fun row => row.roll_no = k) with
  | nil => rw [hfl] at hmem; cases hmem
  | cons a t => exact ⟨a, by simp [get_student_by_roll, dbSelectByRoll, hfl]⟩

/-! ### Claim C9 -/

/-- Claim C9 counterexample: when no live connection exists and the one
reconnect attempt fails, Database.execute raises RuntimeError — not the
builtin ConnectionError the specification names. -/
theorem execute_reconnect_not_connectionError :
    (execute_conn_phase false false).1 = .error (.runtimeError "DB connection failed") ∧
    PyExc.isConnectionErr (.runtimeError "DB connection failed") = false :=
  ⟨rfl, rfl⟩

/-- Claim C9 (amended): when no live connection exists, execute attempts
exactly one reconnect; if that reconnect fails, execute fails with a
RuntimeError carrying the message DB connection failed, which is not a
ConnectionError. -/
theorem execute_reconnect_policy (connectOk : Bool) :
    (execute_conn_phase false connectOk).2 = 1 ∧
    (∀ msg, (execute_conn_phase false connectOk).1 ≠ .error (.connectionError msg)) ∧
    (connectOk = false →
      (execute_conn_phase false connectOk).1 = .error (.runtimeError "DB connection failed")) := by
  cases connectOk <;> simp [execute_conn_phase]

/-- Witness for the amended C9 claim at a concrete input. -/
theorem execute_reconnect_policy_witness :
    (execute_conn_phase false false).2 = 1 ∧
    (∀ msg, (execute_conn_phase false false).1 ≠ .error (.connectionError msg)) ∧
    (false = false →
      (execute_conn_phase false false).1 = .error (.runtimeError "DB connection failed")) :=
  execute_reconnect_policy false

/-! ### Claim C10 -/

/-- Claim C10: the CLI delete flow issues the delete statement iff the
stripped, lowercased confirmation equals yes; for any other confirmation
it prints a cancellation message and leaves the store unchanged. -/
theorem delete_flow_confirmation (s : Store) (roll confirm : String) :
    (pyLower (pyStrip confirm) = "yes" →
      delete_flow s roll confirm =
        (s.filter (fun row => row.roll_no ≠ roll), true,
          ["✅ Student deleted (if existed)."])) ∧
    (pyLower (pyStrip confirm) ≠ "yes" →
      delete_flow s roll confirm = (s, false, ["Delete cancelled."])) := by
  constructor
  · intro h; simp [delete_flow, h, delete_student, dbDelete]
  · intro h; simp [delete_flow, h]

/-- Witness for C10: a concrete confirmed deletion and a concrete
cancellation. -/
theorem delete_flow_confirmation_witness :
    delete_flow demoStore "2" " YES " =
      (demoStore.filter (fun row => row.roll_no ≠ "2"), true,
        ["✅ Student deleted (if existed)."]) ∧
    delete_flow demoStore "2" "no" = (demoStore, false, ["Delete cancelled."]) :=
  ⟨(delete_flow_confirmation demoStore "2" " YES ").1 (by decide),
   (delete_flow_confirmation demoStore "2" "no").2 (by decide)⟩

/-! ### Claim C4 -/

/-- Claim C4: deleting the same roll_no twice in succession raises no
error on either call, reports the same success message both times
(without distinguishing whether the row existed), and the record is
absent from the store after the first call. -/
theorem delete_twice_idempotent (s : Store) (k : String) :
    ∃ s₁, delete_student none s k = .ok (s₁, ["✅ Student deleted (if existed)."]) ∧
      delete_student none s₁ k = .ok (s₁, ["✅ Student deleted (if existed)."]) ∧
      ∀ r ∈ s₁, r.roll_no ≠ k := by
  refine ⟨s.filter (fun row => row.roll_no ≠ k), rfl, ?_, ?_⟩
  · have hself : (s.filter (fun row => row.roll_no ≠ k)).filter (fun row => row.roll_no ≠ k)
        = s.filter (fun row => row.roll_no ≠ k) :=
      List.filter_eq_self.mpr (fun a ha => (List.mem_filter.mp ha).2)
    simp [delete_student, dbDelete, hself]
  · intro r hr
    exact of_decide_eq_true (List.mem_filter.mp hr).2

/-- Witness for C4 at a concrete store and key. -/
theorem delete_twice_idempotent_witness :
    ∃ s₁, delete_student none demoStore "2" = .ok (s₁, ["✅ Student deleted (if existed)."]) ∧
      delete_student none s₁ "2" = .ok (s₁, ["✅ Student deleted (if existed)."]) ∧
      ∀ r ∈ s₁, r.roll_no ≠ "2" :=
  delete_twice_idempotent demoStore "2"

end StudentSystem

namespace StudentSystem

/-! ### Claim C7 -/

/-- Claim C7 counterexample: in the CLI Update flow the marks input
100.01, which is outside [0,100], is accepted by the parsing step and
the update is issued to the store, contradicting the claim that every
CLI flow rejects out-of-range marks before any store operation. -/
theorem update_flow_accepts_out_of_range :
    update_flow_marks "100.01" = .ok (some (mkRat 10001 100)) ∧
    (100 : ℚ) < mkRat 10001 100 ∧
    update_flow [⟨"1", "Asha", some 50, "C"⟩] "1" "" "100.01" "" =
      .ok ([⟨"1", "Asha", some (mkRat 10001 100), "C"⟩], ["✅ Student updated."]) :=
  ⟨by decide, by decide, by decide⟩

/-- Claim C7 (amended): the Add flow (input_marks) accepts exactly the
inputs parsing to a number in [0,100] — in particular exactly 0 and
exactly 100 — and rejects -0.01 and 100.01 with a validation error
before any store operation; the Update flow only parses the marks input
as a float and performs no range validation, accepting any input that
parses. -/
theorem marks_validation_amended (raw : String) (m : ℚ)
    (hp : pyFloat (pyStrip raw) = some m) :
    input_marks " 0 " = .ok 0 ∧
    input_marks "100" = .ok 100 ∧
    input_marks "-0.01" = .error "Invalid marks; enter a number between 0 and 100." ∧
    input_marks "100.01" = .error "Invalid marks; enter a number between 0 and 100." ∧
    (input_marks raw = .ok m ↔ 0 ≤ m ∧ m ≤ 100) ∧
    update_flow_marks raw = .ok (some m) := by
  refine ⟨by decide, by decide, by decide, by decide, ?_, ?_⟩
  · simp only [input_marks, hp]
    split_ifs with h
    · constructor
      · intro hc; cases hc
      · rintro ⟨h1, h2⟩
        rcases h with h | h
        · exact absurd h1 (not_le.mpr h)
        · exact absurd h2 (not_le.mpr h)
    · rw [not_or, not_lt, not_lt] at h
      exact iff_of_true rfl ⟨h.1, h.2⟩
  · have hne : pyStrip raw ≠ "" := by
      intro h0
      rw [h0] at hp
      have h1 : pyFloat "" = none := rfl
      rw [h1] at hp
      cases hp
    simp [update_flow_marks, hne, hp]

/-- Witness for the amended C7 claim at the concrete input 55.5. -/
theorem marks_validation_amended_witness :
    pyFloat (pyStrip "55.5") = some (mkRat 111 2) ∧
    (input_marks " 0 " = .ok 0 ∧
     input_marks "100" = .ok 100 ∧
     input_marks "-0.01" = .error "Invalid marks; enter a number between 0 and 100." ∧
     input_marks "100.01" = .error "Invalid marks; enter a number between 0 and 100." ∧
     (input_marks "55.5" = .ok (mkRat 111 2) ↔ 0 ≤ mkRat 111 2 ∧ mkRat 111 2 ≤ 100) ∧
     update_flow_marks "55.5" = .ok (some (mkRat 111 2))) :=
  ⟨by decide, marks_validation_amended "55.5" (mkRat 111 2) (by decide)⟩

/-! ### Claim C1 -/

/-- Claim C1 counterexample: StudentManager.stats has no exception
handler, so a storage error raised by its SELECT propagates out of the
manager operation to the caller. -/
theorem stats_propagates_storage_error :
    stats (some (.mysqlError "boom")) demoStore = .error (.mysqlError "boom") := rfl

/-- Claim C1 (amended): add, view_all, get_by_roll, update, delete,
backup and restore catch mysql-connector storage errors inside the
operation, print a diagnostic and return a neutral or empty result; but
stats and plot catch nothing, so any storage error there propagates to
the caller, and the RuntimeError raised by a failed reconnect
propagates out of every operation. -/
theorem manager_error_containment_amended (s : Store) (st : Row) (k nm m : String)
    (e : PyExc) (he : e.isMysql = true) :
    add_student (some e) s st = .ok (s, ["❌ Error adding student."]) ∧
    view_students (some e) s = .ok ([], ["❌ Error fetching students."]) ∧
    get_student_by_roll (some e) s k = .ok (none, ["❌ Error."]) ∧
    update_student (some e) none s k (some nm) none none =
      .ok (s, ["❌ Error.", "❌ Student not found."]) ∧
    ((∃ r ∈ s, r.roll_no = k) →
      update_student none (some e) s k (some nm) none none =
        .ok (s, ["❌ Error updating student."])) ∧
    delete_student (some e) s k = .ok (s, ["❌ Error deleting student."]) ∧
    backup_to_csv (some e) true s =
      .ok (none, ["❌ Error fetching students.", "Nothing to backup."]) ∧
    (st.marks.isSome = true → restore_row (some e) (some e) s st = .ok (s, .failed)) ∧
    stats (some e) s = .error e ∧
    plot_marks_distribution (some e) s = .error e ∧
    add_student (some (.runtimeError m)) s st = .error (.runtimeError m) ∧
    view_students (some (.runtimeError m)) s = .error (.runtimeError m) ∧
    update_student (some (.runtimeError m)) none s k (some nm) none none =
      .error (.runtimeError m) ∧
    delete_student (some (.runtimeError m)) s k = .error (.runtimeError m) ∧
    backup_to_csv (some (.runtimeError m)) true s = .error (.runtimeError m) ∧
    (st.marks.isSome = true →
      restore_row (some (.runtimeError m)) none s st = .error (.runtimeError m)) := by
  obtain ⟨msg, rfl⟩ : ∃ msg, e = .mysqlError msg := by
    cases e with
    | mysqlError msg => exact ⟨msg, rfl⟩
    | runtimeError msg => simp [PyExc.isMysql] at he
    | connectionError msg => simp [PyExc.isMysql] at he
    | valueError msg => simp [PyExc.isMysql] at he
  refine ⟨rfl, rfl, rfl, rfl, ?_, rfl, rfl, ?_, rfl, rfl, rfl, rfl, rfl, rfl, rfl, ?_⟩
  · intro hex
    obtain ⟨r0, h0⟩ := get_finds s k hex
    simp [update_student, h0, dbUpdate, PyExc.isMysql]
  · intro hsome
    obtain ⟨mm, hmm⟩ := Option.isSome_iff_exists.mp hsome
    simp [restore_row, parseMarksCell, hmm, dbInsert, dbUpdate, PyExc.isMysql]
  · intro hsome
    obtain ⟨mm, hmm⟩ := Option.isSome_iff_exists.mp hsome
    simp [restore_row, parseMarksCell, hmm, dbInsert, PyExc.isMysql]

/-- Witness for the amended C1 claim: a mysql error during add is
contained, while the same error during stats propagates. -/
theorem manager_error_containment_amended_witness :
    PyExc.isMysql (.mysqlError "boom") = true ∧
    add_student (some (.mysqlError "boom")) demoStore ⟨"9", "Ida", some 40, "C"⟩ =
      .ok (demoStore, ["❌ Error adding student."]) ∧
    stats (some (.mysqlError "boom")) demoStore = .error (.mysqlError "boom") :=
  ⟨by decide,
   (manager_error_containment_amended demoStore ⟨"9", "Ida", some 40, "C"⟩ "2" "Nia" "down"
      (.mysqlError "boom") (by decide)).1,
   (manager_error_containment_amended demoStore ⟨"9", "Ida", some 40, "C"⟩ "2" "Nia" "down"
      (.mysqlError "boom") (by decide)).2.2.2.2.2.2.2.2.1⟩

/-! ### Claim C3 -/

/-- Claim C3: for an existing record, update with only marks supplied
sets the marks of every row keyed by roll_no to exactly X and leaves
name, grade and roll_no unchanged, leaving all other rows untouched;
update with all three fields omitted reports a message and performs no
store modification. -/
theorem update_marks_only_frame (s : Store) (k : String) (X : ℚ)
    (hex : ∃ r ∈ s, r.roll_no = k) :
    update_student none none s k none (some X) none =
      .ok (s.map (updFn k X), ["✅ Student updated."]) ∧
    (∀ row : Row, (updFn k X row).name = row.name ∧ (updFn k X row).grade = row.grade ∧
      (updFn k X row).roll_no = row.roll_no ∧
      (row.roll_no = k → (updFn k X row).marks = some X) ∧
      (row.roll_no ≠ k → updFn k X row = row)) ∧
    update_student none none s k none none none = .ok (s, ["Nothing to update."]) := by
  obtain ⟨r0, h0⟩ := get_finds s k hex
  refine ⟨?_, ?_, ?_⟩
  · simp only [update_student, h0]
    rfl
  · intro row
    by_cases h : row.roll_no = k <;> simp [updFn, h]
  · simp only [update_student, h0]
    rfl

/-- Witness for C3 at a concrete store, key and value. -/
theorem update_marks_only_frame_witness :
    (∃ r ∈ demoStore, r.roll_no = "2") ∧
    (update_student none none demoStore "2" none (some 42) none =
      .ok (demoStore.map (updFn "2" 42), ["✅ Student updated."]) ∧
    (∀ row : Row, (updFn "2" 42 row).name = row.name ∧ (updFn "2" 42 row).grade = row.grade ∧
      (updFn "2" 42 row).roll_no = row.roll_no ∧
      (row.roll_no = "2" → (updFn "2" 42 row).marks = some 42) ∧
      (row.roll_no ≠ "2" → updFn "2" 42 row = row)) ∧
    update_student none none demoStore "2" none none none =
      .ok (demoStore, ["Nothing to update."])) :=
  ⟨by decide, update_marks_only_frame demoStore "2" 42 (by decide)⟩

end StudentSystem

namespace StudentSystem

/-! ### Restore loop lemmas -/

theorem restore_row_ok (f1 f2 : Option PyExc) (t : Store) (row : Row)
    (hm : row.marks.isSome = true) (h1 : faultCaught f1 = true) (h2 : faultCaught f2 = true) :
    ∃ t' out, restore_row f1 f2 t row = .ok (t', out) := by
  obtain ⟨m, hmm⟩ := Option.isSome_iff_exists.mp hm
  cases hins : dbInsert f1 t { row with marks := some m } with
  | ok t' => exact ⟨t', .inserted, by simp [restore_row, parseMarksCell, hmm, hins]⟩
  | error e =>
    have hemy : e.isMysql = true := by
      cases f1 with
      | none =>
        rw [dbInsert] at hins
        split at hins
        · cases hins; rfl
        · cases hins
      | some e0 =>
        rw [dbInsert] at hins
        cases hins
        exact h1
    cases hupd : dbUpdate f2 t row.roll_no (some row.name) (some m) (some row.grade) with
    | ok t2 =>
      exact ⟨t2, .updated, by simp [restore_row, parseMarksCell, hmm, hins, hemy, hupd]⟩
    | error e2 =>
      have h2my : e2.isMysql = true := by
        cases f2 with
        | none => rw [dbUpdate] at hupd; cases hupd
        | some e0 => rw [dbUpdate] at hupd; cases hupd; exact h2
      exact ⟨t, .failed, by simp [restore_row, parseMarksCell, hmm, hins, hemy, hupd, h2my]⟩

theorem restore_rows_ok (file : List Row) (s : Store)
    (fs : List (Option PyExc × Option PyExc))
    (hnum : ∀ r ∈ file, r.marks.isSome = true)
    (hfs : ∀ p ∈ fs, faultCaught p.1 = true ∧ faultCaught p.2 = true) :
    ∃ s' outs, restore_rows s file fs = .ok (s', outs) ∧ outs.length = file.length := by
  induction file generalizing s fs with
  | nil => exact ⟨s, [], rfl, rfl⟩
  | cons row rest ih =>
    have hhead : faultCaught (fs.headD (none, none)).1 = true ∧
        faultCaught (fs.headD (none, none)).2 = true := by
      cases fs with
      | nil => exact ⟨rfl, rfl⟩
      | cons p ps => exact hfs p (by simp)
    obtain ⟨t', out, hrow⟩ :=
      restore_row_ok (fs.headD (none, none)).1 (fs.headD (none, none)).2 s row
        (hnum row (by simp)) hhead.1 hhead.2
    obtain ⟨s'', outs, hrest, hlen⟩ :=
      ih t' fs.tail (fun r hr => hnum r (by simp [hr]))
        (fun p hp => hfs p (List.mem_of_mem_tail hp))
    have hrow' := hrow
    simp only [List.headD_eq_head?_getD] at hrow'
    exact ⟨s'', out :: outs, by simp [restore_rows, hrow, hrow', hrest], by simp [hlen]⟩

theorem restore_rows_inserts (file : List Row) (acc : Store)
    (hnum : ∀ r ∈ file, r.marks.isSome = true)
    (hnd : (file.map Row.roll_no).Nodup)
    (hdis : ∀ r ∈ file, ∀ a ∈ acc, a.roll_no ≠ r.roll_no) :
    restore_rows acc file [] = .ok (acc ++ file, List.replicate file.length .inserted) := by
  induction file generalizing acc with
  | nil => simp [restore_rows]
  | cons row rest ih =>
    simp only [List.map_cons, List.nodup_cons] at hnd
    obtain ⟨m, hm⟩ := Option.isSome_iff_exists.mp (hnum row (by simp))
    have hrow : ({ row with marks := some m } : Row) = row := by
      cases row with
      | mk rn nm mk? gr => simp_all
    have hne : (acc.any fun a => a.roll_no == row.roll_no) = false := by
      refine List.any_eq_false.mpr ?_
      intro a ha
      simp [beq_eq_false_iff_ne.mpr (hdis row (by simp) a ha)]
    have step : restore_row none none acc row = .ok (acc ++ [row], .inserted) := by
      simp [restore_row, parseMarksCell, hm, dbInsert, hne, hrow]
    have hdis' : ∀ r ∈ rest, ∀ a ∈ acc ++ [row], a.roll_no ≠ r.roll_no := by
      intro r hr a ha
      rcases List.mem_append.mp ha with h | h
      · exact hdis r (by simp [hr]) a h
      · have haeq : a = row := by simpa using h
        subst haeq
        intro hEq
        exact hnd.1 (hEq ▸ List.mem_map_of_mem Row.roll_no hr)
    have hrec := ih (acc ++ [row]) (fun r hr => hnum r (by simp [hr])) hnd.2 hdis'
    simp [restore_rows, step, hrec, List.replicate_succ]

/-! ### Claim C2 -/

/-- Claim C2: for a non-empty record set with unique keys and numeric
marks, backup followed by restore into an empty store reproduces
exactly the same multiset of (roll_no, name, marks, grade) tuples,
independent of row order. -/
theorem backup_restore_roundtrip (s : Store)
    (hne : s ≠ [])
    (hkeys : (s.map Row.roll_no).Nodup)
    (hnum : ∀ r ∈ s, r.marks.isSome = true) :
    ∃ file s', backup_to_csv none true s = .ok (some file, ["✅ Backup saved."]) ∧
      restore_from_csv true [] file [] =
        .ok (s', List.replicate file.length .inserted, ["✅ Restore complete."]) ∧
      s'.Perm s := by
  have hsp : (sortByRoll s).Perm s := List.perm_insertionSort rollAsc s
  have hs1 : sortByRoll s ≠ [] := sortByRoll_ne_nil hne
  refine ⟨sortByRoll s, sortByRoll s, ?_, ?_, hsp⟩
  · simp [backup_to_csv, view_students, dbSelectAll, hs1]
  · have hnum' : ∀ r ∈ sortByRoll s, r.marks.isSome = true :=
      fun r hr => hnum r (mem_sortByRoll.mp hr)
    have hkeys' : ((sortByRoll s).map Row.roll_no).Nodup :=
      (hsp.map Row.roll_no).nodup_iff.mpr hkeys
    have hall := restore_rows_inserts (sortByRoll s) [] hnum' hkeys'
      (by intro r _ a ha; cases ha)
    simp [restore_from_csv, hall]

/-- Witness for C2 at the concrete sample store. -/
theorem backup_restore_roundtrip_witness :
    demoStore ≠ [] ∧ (demoStore.map Row.roll_no).Nodup ∧
    (∃ file s', backup_to_csv none true demoStore = .ok (some file, ["✅ Backup saved."]) ∧
      restore_from_csv true [] file [] =
        .ok (s', List.replicate file.length .inserted, ["✅ Restore complete."]) ∧
      s'.Perm demoStore) :=
  ⟨by decide, by decide,
   backup_restore_roundtrip demoStore (by decide) (by decide) (by decide)⟩

/-! ### Claim C8 -/

/-- Claim C8: for a parsed backup frame (numeric marks) and any injected
storage faults of the caught class, the restore loop processes every
row — no per-row failure aborts the remaining rows — and each row is
handled by try-insert, fallback to one update on a mysql error, and a
reported failure leaving the store unchanged when both statements
fail. -/
theorem restore_row_failures_contained (s : Store) (file : List Row)
    (fs : List (Option PyExc × Option PyExc))
    (hnum : ∀ r ∈ file, r.marks.isSome = true)
    (hfs : ∀ p ∈ fs, faultCaught p.1 = true ∧ faultCaught p.2 = true) :
    (∃ s' outs, restore_rows s file fs = .ok (s', outs) ∧ outs.length = file.length) ∧
    (∀ (f1 f2 : Option PyExc) (t : Store) (row : Row) (m : ℚ),
      row.marks = some m →
      (∀ t', dbInsert f1 t { row with marks := some m } = .ok t' →
        restore_row f1 f2 t row = .ok (t', .inserted)) ∧
      (∀ e t', dbInsert f1 t { row with marks := some m } = .error e → e.isMysql = true →
        dbUpdate f2 t row.roll_no (some row.name) (some m) (some row.grade) = .ok t' →
        restore_row f1 f2 t row = .ok (t', .updated)) ∧
      (∀ e e2, dbInsert f1 t { row with marks := some m } = .error e → e.isMysql = true →
        dbUpdate f2 t row.roll_no (some row.name) (some m) (some row.grade) = .error e2 →
        e2.isMysql = true → restore_row f1 f2 t row = .ok (t, .failed))) := by
  refine ⟨restore_rows_ok file s fs hnum hfs, ?_⟩
  intro f1 f2 t row m hm
  refine ⟨?_, ?_, ?_⟩
  · intro t' h
    simp [restore_row, parseMarksCell, hm, h]
  · intro e t' hi he hu
    simp [restore_row, parseMarksCell, hm, hi, he, hu]
  · intro e e2 hi he hu he2
    simp [restore_row, parseMarksCell, hm, hi, he, hu, he2]

/-- Witness for C8: a frame whose first row fails both statements while
the second row is still processed. -/
theorem restore_row_failures_contained_witness :
    (∀ r ∈ demoFile, r.marks.isSome = true) ∧
    (∀ p ∈ demoFaults, faultCaught p.1 = true ∧ faultCaught p.2 = true) ∧
    (∃ s' outs, restore_rows [] demoFile demoFaults = .ok (s', outs) ∧
      outs.length = demoFile.length) :=
  ⟨by decide, by decide,
   (restore_row_failures_contained [] demoFile demoFaults (by decide) (by decide)).1⟩

end StudentSystem

namespace StudentSystem

/-! ### Statistics lemmas -/

theorem listMean_perm {l₁ l₂ : List ℚ} (h : l₁.Perm l₂) : listMean l₁ = listMean l₂ := by
  unfold listMean
  rw [h.length_eq, h.sum_eq]

theorem sortQ_perm_eq {l₁ l₂ : List ℚ} (h : l₁.Perm l₂) :
    List.insertionSort (fun a b : ℚ => a ≤ b) l₁ =
      List.insertionSort (fun a b : ℚ => a ≤ b) l₂ :=
  List.eq_of_perm_of_sorted
    ((List.perm_insertionSort _ l₁).trans (h.trans (List.perm_insertionSort _ l₂).symm))
    (List.sorted_insertionSort _ _) (List.sorted_insertionSort _ _)

theorem listMedian_perm {l₁ l₂ : List ℚ} (h : l₁.Perm l₂) : listMedian l₁ = listMedian l₂ := by
  unfold listMedian
  rw [sortQ_perm_eq h]

theorem sampleVar_perm {l₁ l₂ : List ℚ} (h : l₁.Perm l₂) : sampleVar l₁ = sampleVar l₂ := by
  unfold sampleVar
  simp only [h.length_eq, h.sum_eq,
    List.Perm.sum_eq (h.map fun x => (x - l₂.sum / (l₂.length : ℚ)) ^ 2)]

theorem statsFetch_perm (s : Store) : (statsFetch s).Perm (s.map Row.toStatRow) :=
  (List.perm_insertionSort rollAsc s).map _

theorem statsFetch_ne_nil {s : Store} (h : s ≠ []) : statsFetch s ≠ [] := by
  intro h0
  have hl : (statsFetch s).length = 0 := by rw [h0]; rfl
  rw [statsFetch, List.length_map] at hl
  exact sortByRoll_ne_nil h (List.length_eq_zero.mp hl)

/-! ### Claim C6 -/

/-- Claim C6: a record whose marks cell is non-numeric is excluded from
the mean, median and standard-deviation computations of stats (the
aggregates equal those computed over the store without that record —
missing, not zero), yet the record is still returned by view_all. -/
theorem stats_excludes_nonnumeric (s : Store) (r : Row)
    (hmem : r ∈ s) (hr : r.marks = none) :
    (∃ rows, view_students none s = .ok (rows, []) ∧ r ∈ rows) ∧
    (∃ out, stats none s = .ok (some out) ∧
      out.mean = listMean (numericMarks (statsFetch (s.erase r))) ∧
      out.median = listMedian (numericMarks (statsFetch (s.erase r))) ∧
      out.stdSq = sampleVar (numericMarks (statsFetch (s.erase r)))) := by
  have hne : s ≠ [] := by intro h0; rw [h0] at hmem; cases hmem
  have hs1 : sortByRoll s ≠ [] := sortByRoll_ne_nil hne
  have hf1 : statsFetch s ≠ [] := statsFetch_ne_nil hne
  have hperm : (numericMarks (statsFetch s)).Perm (numericMarks (statsFetch (s.erase r))) := by
    have h3 : s.Perm (r :: s.erase r) := List.perm_cons_erase hmem
    have h5 : List.filterMap (fun row => row.marks) ((r :: s.erase r).map Row.toStatRow)
        = List.filterMap (fun row => row.marks) ((s.erase r).map Row.toStatRow) := by
      simp [Row.toStatRow, hr]
    refine ((statsFetch_perm s).filterMap _).trans ?_
    refine ((h3.map Row.toStatRow).filterMap _).trans ?_
    rw [h5]
    exact ((statsFetch_perm (s.erase r)).filterMap _).symm
  constructor
  · exact ⟨sortByRoll s, by simp [view_students, dbSelectAll, hs1], mem_sortByRoll.mpr hmem⟩
  · refine ⟨{ mean := listMean (numericMarks (statsFetch s)),
              median := listMedian (numericMarks (statsFetch s)),
              stdSq := sampleVar (numericMarks (statsFetch s)),
              toppers := nlargest3 (statsFetch s) }, ?_, ?_, ?_, ?_⟩
    · simp [stats, dbSelectStats, hf1]
    · exact listMean_perm hperm
    · exact listMedian_perm hperm
    · exact sampleVar_perm hperm

/-- Witness for C6: the sample store extended with a non-numeric row. -/
theorem stats_excludes_nonnumeric_witness :
    (⟨"6", "Fay", none, "D"⟩ : Row) ∈ demoStore6 ∧
    ((∃ rows, view_students none demoStore6 = .ok (rows, []) ∧
        (⟨"6", "Fay", none, "D"⟩ : Row) ∈ rows) ∧
     (∃ out, stats none demoStore6 = .ok (some out) ∧
       out.mean = listMean (numericMarks (statsFetch (demoStore6.erase ⟨"6", "Fay", none, "D"⟩))) ∧
       out.median =
         listMedian (numericMarks (statsFetch (demoStore6.erase ⟨"6", "Fay", none, "D"⟩))) ∧
       out.stdSq =
         sampleVar (numericMarks (statsFetch (demoStore6.erase ⟨"6", "Fay", none, "D"⟩))))) :=
  ⟨by decide, stats_excludes_nonnumeric demoStore6 ⟨"6", "Fay", none, "D"⟩ (by decide) rfl⟩

/-! ### Claim C5 -/

/-- Claim C5: for a store with at least one row, the toppers of stats
are the first three rows of a stable descending sort of the numeric
rows of the fetch: a permutation sorted by marks descending in which
tied rows keep their relative fetch order, the fetch order itself being
ascending by roll_no. -/
theorem stats_toppers_top3 (s : Store) (hne : s ≠ []) :
    ∃ out, stats none s = .ok (some out) ∧
      ∃ l, out.toppers = l.take 3 ∧
        l.Perm ((statsFetch s).filter fun row => row.marks.isSome) ∧
        List.Sorted marksDesc l ∧
        (∀ a b : StatRow,
          List.Sublist [a, b] ((statsFetch s).filter fun row => row.marks.isSome) →
          marksVal a = marksVal b → List.Sublist [a, b] l) ∧
        List.Pairwise statRollAsc (statsFetch s) := by
  have hf1 : statsFetch s ≠ [] := statsFetch_ne_nil hne
  refine ⟨{ mean := listMean (numericMarks (statsFetch s)),
            median := listMedian (numericMarks (statsFetch s)),
            stdSq := sampleVar (numericMarks (statsFetch s)),
            toppers := nlargest3 (statsFetch s) }, ?_,
          List.insertionSort marksDesc ((statsFetch s).filter fun row => row.marks.isSome),
          rfl, List.perm_insertionSort _ _, List.sorted_insertionSort _ _, ?_, ?_⟩
  · simp [stats, dbSelectStats, hf1]
  · intro a b hsub heq
    exact List.pair_sublist_insertionSort heq.symm.le hsub
  · exact List.Pairwise.map Row.toStatRow (fun _ _ hab => hab)
      (List.sorted_insertionSort rollAsc s)

/-- Witness for C5 at the concrete sample store. -/
theorem stats_toppers_top3_witness :
    demoStore ≠ [] ∧
    (∃ out, stats none demoStore = .ok (some out) ∧
      ∃ l, out.toppers = l.take 3 ∧
        l.Perm ((statsFetch demoStore).filter fun row => row.marks.isSome) ∧
        List.Sorted marksDesc l ∧
        (∀ a b : StatRow,
          List.Sublist [a, b] ((statsFetch demoStore).filter fun row => row.marks.isSome) →
          marksVal a = marksVal b → List.Sublist [a, b] l) ∧
        List.Pairwise statRollAsc (statsFetch demoStore)) :=
  ⟨by decide, stats_toppers_top3 demoStore (by decide)⟩

end StudentSystem
